import Mathlib

/-!
Shallow embedding of `src/queryanalyzer.py` (a Streamlit voice-memo
assistant).  External collaborators — the whisperx speech-to-text and
alignment library, the Gemini generative-text service, the pptx file
writer and the temp-file allocator — are modelled as oracle parameters:
a call that can raise in Python is an `Except`-valued oracle, and the
`try/except` structure of the Python code is reproduced explicitly.
Each Streamlit page handler becomes a pure step function on the session
state; the list of prompts a handler sends to the generative service is
returned alongside the new state so that adapter-call counts are
observable.
-/

namespace QueryAnalyzer

/-- A chat message, modelling the Python dict with keys `role` and
`content` appended to `st.session_state.messages`. Roles are the strings
`"user"` and `"assistant"`, as in the source. -/
structure Msg where
  role : String
  content : String
  deriving DecidableEq, Repr

/-- The Streamlit session state: direct transcription of the
`session_defaults` dict (lines 27-38).  `audio_data` (an uploaded blob)
is modelled as an opaque optional string of bytes; Python `None` becomes
`Option.none`. -/
structure SessionState where
  page : String
  transcription : String
  summary : String
  audioData : Option String
  audioPath : String
  messages : List Msg
  pptPath : Option String
  summaryPath : Option String
  pptTitle : String
  pptHeadings : String
  deriving DecidableEq, Repr

/-- The `session_defaults` dict (lines 27-38). -/
def sessionDefaults : SessionState :=
  { page := "main"
    transcription := ""
    summary := ""
    audioData := none
    audioPath := ""
    messages := []
    pptPath := none
    summaryPath := none
    pptTitle := ""
    pptHeadings := "" }

/-- A generative-text oracle: `model.generate_content` followed by
`.text`.  `Except.error e` models the call raising an exception whose
`str(e)` is `e`; `Except.ok t` models a successful completion text. -/
def Gen : Type := String → Except String String

/-- One aligned transcript segment.  The float timestamp `seg[...]start`
is external data produced by whisperx; it is abstracted as its already
`%.2f`-formatted rendering `start` (floating point itself is not
embedded), together with the segment text. -/
structure Segment where
  start : String
  text : String
  deriving DecidableEq, Repr

/-- A transcription-adapter failure: any exception raised by the
whisperx calls in `transcribe_audio`, carrying its message. -/
structure TranscriptionError where
  msg : String
  deriving DecidableEq, Repr

/-- Rendering of one segment inside `transcribe_audio`'s join:
the f-string with the timestamp and text (line 59). -/
def formatSegment (s : Segment) : String :=
  "[" ++ s.start ++ "s] " ++ s.text

/-- The body of `transcribe_audio` (lines 45-61): the model loading,
transcription and alignment calls are the adapter oracle, which either
yields the aligned segments or raises; on success the segments are
joined with newlines.  Note there is no `try/except` anywhere in this
function: an adapter error propagates. -/
def transcribe_audio (adapter : Except TranscriptionError (List Segment)) :
    Except TranscriptionError String :=
  match adapter with
  | .error e => .error e
  | .ok segs => .ok (String.intercalate "\n" (segs.map formatSegment))

/-- The summary prompt template of `generate_summary` (lines 65-77),
with the transcription interpolated. -/
def summaryPrompt (transcription : String) : String :=
  "\n        Create a professional summary from this audio transcript:\n        "
    ++ transcription
    ++ "\n        \n        Include:\n        - Key discussion points\n        - Important figures/dates\n        - Action items\n        - Recommendations\n        - Overall sentiment analysis\n        \n        Format with markdown headings and bullet points.\n        "

/-- The body of `generate_summary` (lines 63-81): one generative call on
the summary prompt; any exception is caught and rendered as a marked
error string. -/
def generate_summary (transcription : String) (gen : Gen) : String :=
  match gen (summaryPrompt transcription) with
  | .ok t => t
  | .error e => "❌ Error generating summary: " ++ e

/-- Python `repr` of one message dict as it appears when the f-string
interpolates the list (quotes around simple strings, keys in insertion
order). -/
def reprMsg (m : Msg) : String :=
  "\x7b\x27role\x27: \x27" ++ m.role ++ "\x27, \x27content\x27: \x27"
    ++ m.content ++ "\x27\x7d"

/-- Python `repr` of a list of message dicts. -/
def reprHistory (l : List Msg) : String :=
  "[" ++ String.intercalate ", " (l.map reprMsg) ++ "]"

/-- Python slicing `l[-n:]` for `n > 0`: the last `n` elements (the
whole list when it is shorter than `n`). -/
def lastSlice (n : Nat) (l : List α) : List α :=
  l.drop (l.length - n)

/-- The fixed text of the chat system prompt before the history window
(lines 125-128), with the transcription interpolated. -/
def chatPromptPre (transcription : String) : String :=
  "\n    ROLE: Voice Analysis Assistant\n    CONTEXT: " ++ transcription
    ++ "\n    HISTORY: "

/-- The fixed text of the chat system prompt after the history window
(lines 129-144), with the user question interpolated. -/
def chatPromptPost (question : String) : String :=
  "\n    \n    Rules:\n    1. Answer strictly based on the audio content\n    2. If question is unrelated to audio, respond politely with different  wordings for each unrelated questions\n    3. Maintain conversational flow\n    4.You are a chatbot named \"Chat with your voice\" . You need to understand the audio trabscribe intent or meaning and the query meaning and respond correctly\n    5. Use markdown formatting when appropriate\n    6. Keep responses concise but helpful\n    7. Use markdown formatting (**bold**, *italics*, lists) when helpful\n    8. Never mention you\x27re an AI or language model\n    9. Maintain friendly, professional tone but dont need to wish or greeting in each response\n    10.Acknowledge previous interactions when relevant\n    11.In some cases for unrelated questions you can also give like  \"I specialize in analyzing the current recording. Ask me about: [list key topics]\"\n    \n    USER QUESTION: "
    ++ question ++ "\n    "

/-- The `system_prompt` f-string of `chat_response` (lines 125-144):
fixed instructions with the transcription, the history window
`messages[-5:]` (rendered as Python renders the list), and the user
question interpolated. -/
def systemPrompt (transcription : String) (messages : List Msg) (question : String) : String :=
  chatPromptPre transcription ++ reprHistory (lastSlice 5 messages) ++ chatPromptPost question

/-- The body of `chat_response` (lines 124-150): one generative call on
the system prompt; any exception is caught and rendered as a marked
error string. -/
def chat_response (transcription : String) (messages : List Msg) (question : String)
    (gen : Gen) : String :=
  match gen (systemPrompt transcription messages question) with
  | .ok t => t
  | .error e => "⚠️ Error: " ++ e

/-- One pptx slide: the text set on `slide.shapes.title` and the text
set on `slide.placeholders[1]` (subtitle or content body). -/
structure Slide where
  title : String
  body : String
  deriving DecidableEq, Repr

/-- The in-memory presentation being built: its slides in order of
`prs.slides.add_slide` calls. -/
structure Deck where
  slides : List Slide
  deriving DecidableEq, Repr

/-- Python `s.split(chr(10))`: split on each newline, keeping empty
pieces (implemented over the character list so that proofs can evaluate
it; `String.splitOn` agrees but does not reduce in the kernel). -/
def splitLines (s : String) : List String :=
  (s.data.splitOn (Char.ofNat 10)).map (fun cs => { data := cs })

/-- Python `s.strip()`: drop leading and trailing whitespace
(implemented over the character list for the same reason). -/
def strip (s : String) : String :=
  { data := ((s.data.dropWhile Char.isWhitespace).reverse.dropWhile
      Char.isWhitespace).reverse }

/-- The heading preprocessing of `create_presentation` (line 96):
split the text area on newlines, strip each line, keep non-blank ones. -/
def nonblankHeadings (headings : String) : List String :=
  ((splitLines headings).map strip).filter (fun h => h ≠ "")

/-- The per-slide prompt template of `create_presentation`
(lines 103-111), with the heading and transcription interpolated. -/
def slidePrompt (heading transcription : String) : String :=
  "\n            Create 3-5 bullet points for \x27" ++ heading
    ++ "\x27 using:\n            " ++ transcription
    ++ "\n            \n            Rules:\n            - Use concise business language\n            - Include key figures/dates\n            - Format as markdown list\n            "

/-- The content-body rendering of `create_presentation` (line 113):
split the generated response on newlines, keep lines that are non-blank
after stripping, put a bullet in front of each (unstripped) line, and
join with newlines. -/
def slideBody (response : String) : String :=
  String.intercalate "\n"
    (((splitLines response).filter (fun p => strip p ≠ "")).map (fun p => "- " ++ p))

/-- The heading loop of `create_presentation` (lines 96-113): for each
non-blank heading, one generative call produces that slide's bullets.
Returns the content slides on success or the first raised exception,
together with the list of prompts actually sent to the generative
service before stopping (the trace of adapter calls). -/
def buildContentSlides (transcription : String) (gen : Gen) :
    List String → Except String (List Slide) × List String
  | [] => (.ok [], [])
  | h :: rest =>
    match gen (slidePrompt h transcription) with
    | .error e => (.error e, [slidePrompt h transcription])
    | .ok response =>
      match buildContentSlides transcription gen rest with
      | (.error e, t) => (.error e, slidePrompt h transcription :: t)
      | (.ok cs, t) =>
        (.ok ({ title := h, body := slideBody response } :: cs),
         slidePrompt h transcription :: t)

/-- The body of `create_presentation` (lines 83-122).  `now` is the
`datetime.now().strftime(...)` rendering; `save` is the
temp-file-allocate-and-`prs.save` step, which either returns the temp
file's path or raises.  The whole body is inside one `try`: any
exception (a generative call or the save) is caught, reported via
`st.error`, and `None` is returned.  Result: the optional returned path
together with the deck it persisted, the `st.error` messages shown, and
the trace of prompts sent to the generative service. -/
def create_presentation (title headings transcription now : String) (gen : Gen)
    (save : Deck → Except String String) :
    Option (String × Deck) × List String × List String :=
  match buildContentSlides transcription gen (nonblankHeadings headings) with
  | (.error e, t) => (none, ["PPT Error: " ++ e], t)
  | (.ok cs, t) =>
    match save { slides := { title := title, body := "Generated " ++ now } :: cs } with
    | .error e => (none, ["PPT Error: " ++ e], t)
    | .ok p =>
      (some (p, { slides := { title := title, body := "Generated " ++ now } :: cs }), [], t)

/-- The "New Session" button body in `main_page` (lines 165-170): the
four assignments it performs on the session state. -/
def newSessionReset (st : SessionState) : SessionState :=
  { st with audioData := none, audioPath := "", transcription := "", messages := [] }

/-- The transcription trigger of `main_page` (lines 181-182): when audio
is present and the transcription is empty, `transcribe_audio()` is
called and its result stored.  There is no `try/except` around the call:
`Except.error` models the adapter exception escaping the handler
uncaught. -/
def mainPageTranscribe (st : SessionState)
    (adapter : Except TranscriptionError (List Segment)) :
    Except TranscriptionError SessionState :=
  if st.audioData.isSome && st.transcription == "" then
    match transcribe_audio adapter with
    | .error e => .error e
    | .ok t => .ok { st with transcription := t }
  else .ok st

/-- A write of bytes to a file performed by a handler (the temp-file
write of the summary). -/
structure FileWrite where
  path : String
  content : ByteArray

/-- A `st.download_button` offer: the download file name, the path the
served bytes are read from, and the MIME type. -/
structure DownloadOffer where
  fileName : String
  sourcePath : Option String
  mime : String
  deriving DecidableEq, Repr

/-- Result of one run of `summary_page`: new state, temp-file writes,
the download offer, and the prompts sent to the generative service. -/
structure SummaryRender where
  state : SessionState
  writes : List FileWrite
  offer : DownloadOffer
  prompts : List String

/-- The body of `summary_page` (lines 207-230), back-button aside: when
the cached summary is empty, one `generate_summary` call fills it and
the result is encoded (UTF-8, Python `str.encode()` default) into a
fresh temp file whose path `tmpPath` is recorded; then the summary is
rendered and offered for download as `voice_summary.md`. -/
def summary_page (st : SessionState) (gen : Gen) (tmpPath : String) : SummaryRender :=
  if st.summary == "" then
    let s := generate_summary st.transcription gen
    { state := { st with summary := s, summaryPath := some tmpPath }
      writes := [{ path := tmpPath, content := s.toUTF8 }]
      offer := { fileName := "voice_summary.md", sourcePath := some tmpPath,
                 mime := "text/markdown" }
      prompts := [summaryPrompt st.transcription] }
  else
    { state := st
      writes := []
      offer := { fileName := "voice_summary.md", sourcePath := st.summaryPath,
                 mime := "text/markdown" }
      prompts := [] }

/-- Result of one run of `ppt_page`: new state, `st.error` messages, and
the prompts sent to the generative service. -/
structure PptRender where
  state : SessionState
  errors : List String
  prompts : List String

/-- The body of `ppt_page` (lines 232-257), back-button and download
rendering aside: only when the form's submit button was pressed
(`submitted`) is `create_presentation` called, and its result — `None`
on failure — is stored into `ppt_path` unconditionally. -/
def ppt_page (st : SessionState) (gen : Gen) (save : Deck → Except String String)
    (now : String) (submitted : Bool) (title headings : String) : PptRender :=
  if submitted then
    match create_presentation title headings st.transcription now gen save with
    | (res, errs, t) =>
      { state := { st with pptPath := res.map (fun r => r.1) }
        errors := errs
        prompts := t }
  else
    { state := st, errors := [], prompts := [] }

/-- Result of one run of `chat_page`: new state and the prompts sent to
the generative service. -/
structure ChatRender where
  state : SessionState
  prompts : List String

/-- The chat-input branch of `chat_page` (lines 272-280): the user
message is appended first, then `chat_response` runs (reading the log
that already contains the new user message) and the assistant message is
appended. -/
def chatSubmit (st : SessionState) (gen : Gen) (question : String) : SessionState :=
  let msgs1 := st.messages ++ [{ role := "user", content := question }]
  let response := chat_response st.transcription msgs1 question gen
  { st with messages := msgs1 ++ [{ role := "assistant", content := response }] }

/-- The body of `chat_page` (lines 259-280), back-button aside: the
history is rendered from the cached log; only when the chat input yields
a prompt does a generative call happen. -/
def chat_page (st : SessionState) (gen : Gen) (question : Option String) : ChatRender :=
  match question with
  | none => { state := st, prompts := [] }
  | some q =>
    { state := chatSubmit st gen q
      prompts := [systemPrompt st.transcription
        (st.messages ++ [{ role := "user", content := q }]) q] }

/-- The app-flow router (lines 283-293): the `if/elif` chain dispatches
the four known page ids to their handlers; any other value falls to the
`else` branch, which sets the page to `"main"` and reruns (rendering
nothing this run).  Result: the state after routing and, when a page is
rendered this run, its id. -/
def appFlow (st : SessionState) : SessionState × Option String :=
  if st.page == "main" then (st, some "main")
  else if st.page == "summary" then (st, some "summary")
  else if st.page == "ppt" then (st, some "ppt")
  else if st.page == "chat" then (st, some "chat")
  else ({ st with page := "main" }, none)

/-- Well-formedness of the chat log: even length, alternating roles
starting with a user message. -/
def chatLogOk : List Msg → Bool
  | [] => true
  | u :: a :: rest => u.role == "user" && a.role == "assistant" && chatLogOk rest
  | _ :: [] => false

/-! Concrete demo states and oracles used by counterexamples and
witnesses. -/

/-- A session that has completed a full workflow: transcript, cached
summary, exported summary file and deck, and a chat exchange. -/
def staleState : SessionState :=
  { sessionDefaults with
      transcription := "[0.00s] Hello world"
      summary := "## Old Summary"
      audioData := some "audio-bytes"
      audioPath := "/tmp/a.wav"
      messages := [{ role := "user", content := "q" }, { role := "assistant", content := "a" }]
      pptPath := some "/tmp/d.pptx"
      summaryPath := some "/tmp/s.txt" }

/-- A session with audio recorded but not yet transcribed. -/
def audioReadyState : SessionState :=
  { sessionDefaults with audioData := some "audio-bytes", audioPath := "/tmp/a.wav" }

/-- A session whose page id is not one of the four known screens. -/
def badPageState : SessionState :=
  { sessionDefaults with page := "bogus" }

/-- A generative oracle that always succeeds with three bullet lines. -/
def demoGen : Gen := fun _ => .ok "Point one\nPoint two\nPoint three"

/-- A generative oracle that always raises. -/
def demoGenFail : Gen := fun _ => .error "quota exceeded"

/-- A deck-save oracle that always succeeds with a fixed temp path. -/
def demoSave : Deck → Except String String := fun _ => .ok "/tmp/deck.pptx"

/-! Theorems for the claims. -/

/-- C1: the claim says the New Session reset clears the audio
reference, transcript, chat log AND all derived artifacts (cached
summary text, summary file path, deck file path) together.  The code
(lines 166-169) clears only the first four fields: evaluated at a state
holding a finished workflow, the summary text, summary path and deck
path all survive the reset with their old non-default values, so a new
recording would render the stale summary. -/
theorem newSession_reset_keeps_derived_artifacts :
    (newSessionReset staleState).audioData = none ∧
    (newSessionReset staleState).audioPath = "" ∧
    (newSessionReset staleState).transcription = "" ∧
    (newSessionReset staleState).messages = [] ∧
    (newSessionReset staleState).summary = "## Old Summary" ∧
    (newSessionReset staleState).summaryPath = some "/tmp/s.txt" ∧
    (newSessionReset staleState).pptPath = some "/tmp/d.pptx" ∧
    (newSessionReset staleState).summary ≠ sessionDefaults.summary ∧
    (newSessionReset staleState).summaryPath ≠ sessionDefaults.summaryPath ∧
    (newSessionReset staleState).pptPath ≠ sessionDefaults.pptPath := by
  refine ⟨rfl, rfl, rfl, rfl, rfl, rfl, rfl, ?_, ?_, ?_⟩ <;> decide

/-- C3: the chat system prompt interpolates exactly the window
`messages[-5:]` of the history: the prompt decomposes around the
rendering of that window, and the window is a suffix of the history
(hence verbatim and in original order, with everything earlier than the
last 5 messages excluded) of length `min 5 (length history)`. -/
theorem chat_prompt_window_last_five (trans : String) (msgs : List Msg) (q : String) :
    (∃ pre post,
      systemPrompt trans msgs q = pre ++ reprHistory (lastSlice 5 msgs) ++ post) ∧
    (lastSlice 5 msgs).length = min 5 msgs.length ∧
    List.IsSuffix (lastSlice 5 msgs) msgs := by
  refine ⟨⟨chatPromptPre trans, chatPromptPost q, rfl⟩, ?_, ?_⟩
  · unfold lastSlice
    rw [List.length_drop]
    omega
  · exact List.drop_suffix _ _

/-- C6: the two generative-text operations are total functions of the
oracle outcome: when the service call succeeds they return its
completion text, and when it raises they return a marked human-readable
error string instead of propagating the exception (distinct markers for
the summary and chat paths). -/
theorem generative_adapters_return_not_raise (trans q : String) (msgs : List Msg)
    (gen : Gen) :
    ((∃ t, gen (summaryPrompt trans) = .ok t ∧ generate_summary trans gen = t) ∨
      (∃ e, gen (summaryPrompt trans) = .error e ∧
        generate_summary trans gen = "❌ Error generating summary: " ++ e)) ∧
    ((∃ t, gen (systemPrompt trans msgs q) = .ok t ∧ chat_response trans msgs q gen = t) ∨
      (∃ e, gen (systemPrompt trans msgs q) = .error e ∧
        chat_response trans msgs q gen = "⚠️ Error: " ++ e)) := by
  constructor
  · cases hg : gen (summaryPrompt trans) with
    | ok t => exact Or.inl ⟨t, rfl, by simp [generate_summary, hg]⟩
    | error e => exact Or.inr ⟨e, rfl, by simp [generate_summary, hg]⟩
  · cases hg : gen (systemPrompt trans msgs q) with
    | ok t => exact Or.inl ⟨t, rfl, by simp [chat_response, hg]⟩
    | error e => exact Or.inr ⟨e, rfl, by simp [chat_response, hg]⟩

/-- C7 counterexample: the claim says a transcription-adapter error is
caught and converted into a user-visible message.  At a concrete state
with fresh audio and a raising adapter, the home handler's transcription
step yields an uncaught exception (`Except.error`), not a recovered
state: nothing in `transcribe_audio` or `main_page` catches it. -/
theorem transcription_error_escapes_uncaught :
    (mainPageTranscribe audioReadyState
        (.error { msg := "model load failed" })).isOk = false ∧
    mainPageTranscribe audioReadyState (.error { msg := "model load failed" })
      = .error { msg := "model load failed" } := by
  exact ⟨rfl, rfl⟩

/-- C7 amended: an adapter error raised during transcription is not
caught by the application code: it propagates unchanged out of
`transcribe_audio` and out of the home handler's transcription step
(the surrounding UI framework, outside this code, is what keeps the
process alive). -/
theorem transcription_error_propagates (st : SessionState) (e : TranscriptionError)
    (haudio : st.audioData.isSome = true) (htr : st.transcription = "") :
    transcribe_audio (.error e) = .error e ∧
    mainPageTranscribe st (.error e) = .error e := by
  refine ⟨rfl, ?_⟩
  simp [mainPageTranscribe, haudio, htr, transcribe_audio]

/-- Witness for the amended C7 theorem at a concrete state and error. -/
theorem transcription_error_propagates_witness :
    audioReadyState.audioData.isSome = true ∧
    audioReadyState.transcription = "" ∧
    transcribe_audio (.error { msg := "boom" }) = .error { msg := "boom" } ∧
    mainPageTranscribe audioReadyState (.error { msg := "boom" })
      = .error { msg := "boom" } :=
  ⟨by decide, rfl,
    (transcription_error_propagates audioReadyState { msg := "boom" }
      (by decide) rfl).1,
    (transcription_error_propagates audioReadyState { msg := "boom" }
      (by decide) rfl).2⟩

/-- C9: any page id other than the four known screens falls into the
`else` branch of the app-flow router, which sets the page back to
`"main"` and reruns without rendering anything this pass. -/
theorem invalid_page_redirects_home (st : SessionState)
    (h : st.page ∉ (["main", "summary", "ppt", "chat"] : List String)) :
    appFlow st = ({ st with page := "main" }, none) := by
  simp only [List.mem_cons, List.not_mem_nil, or_false, not_or] at h
  obtain ⟨h1, h2, h3, h4⟩ := h
  simp [appFlow, h1, h2, h3, h4]

/-- Witness for the C9 theorem at a concrete invalid page id. -/
theorem invalid_page_redirects_home_witness :
    badPageState.page ∉ (["main", "summary", "ppt", "chat"] : List String) ∧
    appFlow badPageState = ({ badPageState with page := "main" }, none) :=
  ⟨by decide, invalid_page_redirects_home badPageState (by decide)⟩

/-- When the heading loop completes without an exception, it yields one
content slide per heading, in order, each titled by its heading. -/
theorem buildContentSlides_ok_titles (trans : String) (gen : Gen) :
    ∀ hs cs, (buildContentSlides trans gen hs).1 = .ok cs →
      cs.map Slide.title = hs := by
  intro hs
  induction hs with
  | nil =>
    intro cs h
    simp [buildContentSlides] at h
    simp [← h]
  | cons h rest ih =>
    intro cs hcs
    unfold buildContentSlides at hcs
    cases hg : gen (slidePrompt h trans) with
    | error e => rw [hg] at hcs; simp at hcs
    | ok resp =>
      rw [hg] at hcs
      cases hrec : buildContentSlides trans gen rest with
      | mk r t =>
        rw [hrec] at hcs
        cases r with
        | error e => simp at hcs
        | ok tail =>
          simp at hcs
          subst hcs
          have htail := ih tail (by rw [hrec])
          simp [htail]

/-- The heading loop sends at least one prompt to the generative service
as soon as there is one heading, whatever the oracle answers. -/
theorem buildContentSlides_trace_cons (trans : String) (gen : Gen)
    (h : String) (rest : List String) :
    (buildContentSlides trans gen (h :: rest)).2 ≠ [] := by
  unfold buildContentSlides
  cases gen (slidePrompt h trans) with
  | error e => simp
  | ok resp =>
    cases buildContentSlides trans gen rest with
    | mk r t => cases r <;> simp

/-- The deck exporter's generative-prompt trace is exactly the heading
loop's trace, in every outcome. -/
theorem create_presentation_trace (title headings trans now : String) (gen : Gen)
    (save : Deck → Except String String) :
    (create_presentation title headings trans now gen save).2.2
      = (buildContentSlides trans gen (nonblankHeadings headings)).2 := by
  unfold create_presentation
  split
  · simp_all
  · split <;> simp_all

/-- A session whose transcript exists and whose deck path is already
cached from an earlier generation. -/
def cachedDeckState : SessionState :=
  { sessionDefaults with
      transcription := "[0.00s] Hello world"
      pptPath := some "/tmp/old.pptx" }

/-- A session whose summary is already cached. -/
def cachedSummaryState : SessionState :=
  { sessionDefaults with
      transcription := "[0.00s] Hello world"
      summary := "## Old Summary"
      summaryPath := some "/tmp/s.txt" }

/-- C2 counterexample: the claim says no handler re-invokes the
generative adapter while its cached result is non-empty.  The deck
handler does: at a state whose deck path is already cached, submitting
the settings form runs `create_presentation` again, sending one prompt
per non-blank heading to the adapter (here exactly one). -/
theorem deck_submit_regenerates_despite_cache :
    cachedDeckState.pptPath ≠ none ∧
    (ppt_page cachedDeckState demoGen demoSave "07 Oct 2025 12:00" true
        "Voice Analysis Report" "Introduction").prompts.length = 1 := by
  exact ⟨by decide, rfl⟩

/-- C2 amended: the summary handler skips the adapter whenever its
cached summary is non-empty, and the deck and chat handlers send no
prompt on a plain re-visit (no form submission, no chat input); but a
deck form submission re-runs generation even when a deck path is already
cached, and sends at least one prompt whenever some heading is
non-blank. -/
theorem cached_handlers_skip_adapter (st : SessionState) (gen : Gen)
    (save : Deck → Except String String) (now title headings tmp : String)
    (hsum : st.summary ≠ "") :
    (summary_page st gen tmp).prompts = [] ∧
    (ppt_page st gen save now false title headings).prompts = [] ∧
    (chat_page st gen none).prompts = [] ∧
    (nonblankHeadings headings ≠ [] →
      (ppt_page st gen save now true title headings).prompts ≠ []) := by
  refine ⟨?_, rfl, rfl, ?_⟩
  · simp [summary_page, hsum]
  · intro hnb
    cases hhd : nonblankHeadings headings with
    | nil => exact absurd hhd hnb
    | cons h rest =>
      have htr : (ppt_page st gen save now true title headings).prompts
          = (buildContentSlides st.transcription gen (nonblankHeadings headings)).2 := by
        rw [← create_presentation_trace title headings st.transcription now gen save]
        rcases hc : create_presentation title headings st.transcription now gen save
          with ⟨res, errs, t⟩
        simp [ppt_page, hc]
      rw [htr, hhd]
      exact buildContentSlides_trace_cons st.transcription gen h rest

/-- Witness for the amended C2 theorem at a concrete cached state. -/
theorem cached_handlers_skip_adapter_witness :
    cachedSummaryState.summary ≠ "" ∧
    (summary_page cachedSummaryState demoGen "/tmp/s2.txt").prompts = [] ∧
    (ppt_page cachedSummaryState demoGen demoSave "07 Oct 2025 12:00" false
        "Voice Analysis Report" "Introduction").prompts = [] ∧
    (chat_page cachedSummaryState demoGen none).prompts = [] ∧
    (ppt_page cachedSummaryState demoGen demoSave "07 Oct 2025 12:00" true
        "Voice Analysis Report" "Introduction").prompts ≠ [] :=
  ⟨by decide,
    (cached_handlers_skip_adapter cachedSummaryState demoGen demoSave
      "07 Oct 2025 12:00" "Voice Analysis Report" "Introduction" "/tmp/s2.txt"
      (by decide)).1,
    (cached_handlers_skip_adapter cachedSummaryState demoGen demoSave
      "07 Oct 2025 12:00" "Voice Analysis Report" "Introduction" "/tmp/s2.txt"
      (by decide)).2.1,
    (cached_handlers_skip_adapter cachedSummaryState demoGen demoSave
      "07 Oct 2025 12:00" "Voice Analysis Report" "Introduction" "/tmp/s2.txt"
      (by decide)).2.2.1,
    (cached_handlers_skip_adapter cachedSummaryState demoGen demoSave
      "07 Oct 2025 12:00" "Voice Analysis Report" "Introduction" "/tmp/s2.txt"
      (by decide)).2.2.2 (by decide)⟩

/-- C4: whenever the deck exporter returns a path, the deck it persisted
has exactly one title slide (title text plus the generation timestamp
subtitle) followed by one content slide per non-blank heading line, in
order. -/
theorem deck_slide_count (title headings trans now : String) (gen : Gen)
    (save : Deck → Except String String) (p : String) (deck : Deck)
    (h : (create_presentation title headings trans now gen save).1 = some (p, deck)) :
    deck.slides.length = 1 + (nonblankHeadings headings).length ∧
    deck.slides.head? = some { title := title, body := "Generated " ++ now } ∧
    deck.slides.tail.map Slide.title = nonblankHeadings headings := by
  unfold create_presentation at h
  split at h
  · simp at h
  · rename_i cs t heq
    split at h
    · simp at h
    · rename_i p2 hsave
      simp only [Option.some.injEq, Prod.mk.injEq] at h
      obtain ⟨hp, hdeck⟩ := h
      subst hdeck
      have htitles := buildContentSlides_ok_titles trans gen (nonblankHeadings headings)
        cs (by rw [heq])
      refine ⟨?_, rfl, htitles⟩
      have hlen : cs.length = (nonblankHeadings headings).length := by
        rw [← htitles, List.length_map]
      simp only [List.length_cons, hlen]
      omega

/-- The deck produced by a successful demo generation over the headings
text with one blank line. -/
def demoDeck : Deck :=
  { slides := [
      { title := "Voice Analysis Report", body := "Generated 07 Oct 2025 12:00" },
      { title := "Intro", body := "- Point one\n- Point two\n- Point three" },
      { title := "Findings", body := "- Point one\n- Point two\n- Point three" } ] }

/-- Witness for the C4 theorem at concrete inputs (two non-blank
headings out of three lines, hence three slides). -/
theorem deck_slide_count_witness :
    (create_presentation "Voice Analysis Report" "Intro\n \nFindings" "[0.00s] Hello world"
        "07 Oct 2025 12:00" demoGen demoSave).1 = some ("/tmp/deck.pptx", demoDeck) ∧
    demoDeck.slides.length = 1 + (nonblankHeadings "Intro\n \nFindings").length ∧
    demoDeck.slides.head? = some { title := "Voice Analysis Report",
                                   body := "Generated " ++ "07 Oct 2025 12:00" } ∧
    demoDeck.slides.tail.map Slide.title = nonblankHeadings "Intro\n \nFindings" :=
  ⟨by decide,
   (deck_slide_count "Voice Analysis Report" "Intro\n \nFindings" "[0.00s] Hello world"
      "07 Oct 2025 12:00" demoGen demoSave "/tmp/deck.pptx" demoDeck (by decide)).1,
   (deck_slide_count "Voice Analysis Report" "Intro\n \nFindings" "[0.00s] Hello world"
      "07 Oct 2025 12:00" demoGen demoSave "/tmp/deck.pptx" demoDeck (by decide)).2.1,
   (deck_slide_count "Voice Analysis Report" "Intro\n \nFindings" "[0.00s] Hello world"
      "07 Oct 2025 12:00" demoGen demoSave "/tmp/deck.pptx" demoDeck (by decide)).2.2⟩

/-- C5: when anything raises during deck construction or saving, the
exporter shows one marked error message and returns no path; and a
returned path comes with the fully built deck (title slide plus one
slide per non-blank heading) that the save oracle accepted, with no
error shown. -/
theorem deck_error_yields_no_path (title headings trans now : String) (gen : Gen)
    (save : Deck → Except String String) :
    ((create_presentation title headings trans now gen save).1 = none →
      ∃ e, (create_presentation title headings trans now gen save).2.1
        = ["PPT Error: " ++ e]) ∧
    (∀ p deck, (create_presentation title headings trans now gen save).1 = some (p, deck) →
      save deck = .ok p ∧
      deck.slides.length = 1 + (nonblankHeadings headings).length ∧
      (create_presentation title headings trans now gen save).2.1 = []) := by
  rcases hb : buildContentSlides trans gen (nonblankHeadings headings) with ⟨r, t⟩
  cases r with
  | error e =>
    have hc : create_presentation title headings trans now gen save
        = (none, ["PPT Error: " ++ e], t) := by
      simp [create_presentation, hb]
    constructor
    · intro _
      exact ⟨e, by rw [hc]⟩
    · intro p deck hsome
      rw [hc] at hsome
      simp at hsome
  | ok cs =>
    cases hs : save { slides := { title := title, body := "Generated " ++ now } :: cs } with
    | error e =>
      have hc : create_presentation title headings trans now gen save
          = (none, ["PPT Error: " ++ e], t) := by
        simp [create_presentation, hb, hs]
      constructor
      · intro _
        exact ⟨e, by rw [hc]⟩
      · intro p deck hsome
        rw [hc] at hsome
        simp at hsome
    | ok p2 =>
      have hc : create_presentation title headings trans now gen save
          = (some (p2, { slides := { title := title, body := "Generated " ++ now } :: cs }),
             [], t) := by
        simp [create_presentation, hb, hs]
      constructor
      · intro hnone
        rw [hc] at hnone
        simp at hnone
      · intro p deck hsome
        rw [hc] at hsome
        simp only [Option.some.injEq, Prod.mk.injEq] at hsome
        obtain ⟨hp, hdeck⟩ := hsome
        subst hp
        subst hdeck
        have htitles := buildContentSlides_ok_titles trans gen (nonblankHeadings headings)
          cs (by rw [hb])
        have hlen : cs.length = (nonblankHeadings headings).length := by
          rw [← htitles, List.length_map]
        refine ⟨hs, ?_, by rw [hc]⟩
        simp only [List.length_cons, hlen]
        omega

/-- Witness for the C5 theorem: a raising generative call produces no
path and one marked error message (checked by evaluation), and the
successful run from the C4 witness exercises the theorem's
non-null-path branch. -/
theorem deck_error_yields_no_path_witness :
    (create_presentation "Voice Analysis Report" "Intro" "[0.00s] Hello world"
        "07 Oct 2025 12:00" demoGenFail demoSave).1 = none ∧
    (create_presentation "Voice Analysis Report" "Intro" "[0.00s] Hello world"
        "07 Oct 2025 12:00" demoGenFail demoSave).2.1
      = ["PPT Error: " ++ "quota exceeded"] ∧
    demoSave demoDeck = .ok "/tmp/deck.pptx" ∧
    demoDeck.slides.length = 1 + (nonblankHeadings "Intro\n \nFindings").length ∧
    (create_presentation "Voice Analysis Report" "Intro\n \nFindings" "[0.00s] Hello world"
        "07 Oct 2025 12:00" demoGen demoSave).2.1 = [] :=
  ⟨by decide, by decide,
   ((deck_error_yields_no_path "Voice Analysis Report" "Intro\n \nFindings"
      "[0.00s] Hello world" "07 Oct 2025 12:00" demoGen demoSave).2
      "/tmp/deck.pptx" demoDeck (by decide)).1,
   ((deck_error_yields_no_path "Voice Analysis Report" "Intro\n \nFindings"
      "[0.00s] Hello world" "07 Oct 2025 12:00" demoGen demoSave).2
      "/tmp/deck.pptx" demoDeck (by decide)).2.1,
   ((deck_error_yields_no_path "Voice Analysis Report" "Intro\n \nFindings"
      "[0.00s] Hello world" "07 Oct 2025 12:00" demoGen demoSave).2
      "/tmp/deck.pptx" demoDeck (by decide)).2.2⟩

/-- C8: on a first visit with a transcript (cached summary empty), and a
generative service that does not answer with the empty string, the
summary screen fills the cache with non-empty text (the completion, or
the marked error string), writes exactly that text UTF-8-encoded to the
fresh temp file, records the file's path, and offers that file for
download under the name `voice_summary.md` (extension `.md`, markdown
MIME type). -/
theorem summary_first_visit_exports_markdown (st : SessionState) (gen : Gen)
    (tmp : String) (hsum : st.summary = "")
    (hgen : ∀ t, gen (summaryPrompt st.transcription) = .ok t → t ≠ "") :
    (summary_page st gen tmp).state.summary ≠ "" ∧
    (summary_page st gen tmp).state.summary = generate_summary st.transcription gen ∧
    (summary_page st gen tmp).writes
      = [{ path := tmp,
           content := (summary_page st gen tmp).state.summary.toUTF8 }] ∧
    (summary_page st gen tmp).state.summaryPath = some tmp ∧
    (summary_page st gen tmp).offer.sourcePath = some tmp ∧
    (summary_page st gen tmp).offer.fileName = "voice_summary.md" ∧
    (summary_page st gen tmp).offer.mime = "text/markdown" ∧
    (∃ base, (summary_page st gen tmp).offer.fileName = base ++ ".md") := by
  have hne : generate_summary st.transcription gen ≠ "" := by
    unfold generate_summary
    cases hg : gen (summaryPrompt st.transcription) with
    | ok t => exact hgen t hg
    | error e =>
      intro hcontra
      have hlen := congrArg String.length hcontra
      rw [String.length_append] at hlen
      have hpos : 0 < ("❌ Error generating summary: ").length := by decide
      have h0 : ("" : String).length = 0 := rfl
      rw [h0] at hlen
      omega
  have hc : (st.summary == "") = true := by simp [hsum]
  have heq : summary_page st gen tmp =
      { state :=
          { st with
              summary := generate_summary st.transcription gen
              summaryPath := some tmp }
        writes := [{ path := tmp
                     content := (generate_summary st.transcription gen).toUTF8 }]
        offer := { fileName := "voice_summary.md"
                   sourcePath := some tmp
                   mime := "text/markdown" }
        prompts := [summaryPrompt st.transcription] } := by
    unfold summary_page
    rw [if_pos hc]
  rw [heq]
  exact ⟨hne, rfl, rfl, rfl, rfl, rfl, rfl, ⟨"voice_summary", rfl⟩⟩

/-- The session right after transcribing the demo recording, about to
visit the summary screen for the first time. -/
def helloState : SessionState :=
  { sessionDefaults with page := "summary", transcription := "[0.00s] Hello world" }

/-- A generative oracle answering the summary prompt with fixed
markdown. -/
def demoSummaryGen : Gen := fun _ => .ok "## Key discussion points\n- Hello world"

/-- Witness for the C8 theorem on the demo transcript. -/
theorem summary_first_visit_exports_markdown_witness :
    helloState.summary = "" ∧
    (summary_page helloState demoSummaryGen "/tmp/sum.txt").state.summary ≠ "" ∧
    (summary_page helloState demoSummaryGen "/tmp/sum.txt").state.summary
      = generate_summary helloState.transcription demoSummaryGen ∧
    (summary_page helloState demoSummaryGen "/tmp/sum.txt").writes
      = [{ path := "/tmp/sum.txt",
           content := (summary_page helloState demoSummaryGen
             "/tmp/sum.txt").state.summary.toUTF8 }] ∧
    (summary_page helloState demoSummaryGen "/tmp/sum.txt").state.summaryPath
      = some "/tmp/sum.txt" ∧
    (summary_page helloState demoSummaryGen "/tmp/sum.txt").offer.sourcePath
      = some "/tmp/sum.txt" ∧
    (summary_page helloState demoSummaryGen "/tmp/sum.txt").offer.fileName
      = "voice_summary.md" ∧
    (summary_page helloState demoSummaryGen "/tmp/sum.txt").offer.mime
      = "text/markdown" :=
  have h := summary_first_visit_exports_markdown helloState demoSummaryGen "/tmp/sum.txt"
    rfl (fun t ht => by simp [demoSummaryGen] at ht; subst ht; decide)
  ⟨rfl, h.1, h.2.1, h.2.2.1, h.2.2.2.1, h.2.2.2.2.1, h.2.2.2.2.2.1, h.2.2.2.2.2.2.1⟩

/-- Appending one user message followed by one assistant message keeps
the chat log alternating with even length. -/
theorem chatLogOk_append (l : List Msg) (p r : String) (h : chatLogOk l = true) :
    chatLogOk (l ++ [{ role := "user", content := p },
      { role := "assistant", content := r }]) = true := by
  induction l using chatLogOk.induct <;> simp_all [chatLogOk]

/-- A well-formed chat log has even length. -/
theorem chatLogOk_even (l : List Msg) (h : chatLogOk l = true) : l.length % 2 = 0 := by
  induction l using chatLogOk.induct <;> simp_all [chatLogOk] <;> omega

/-- C10: a completed chat submission appends exactly the user message
and then one assistant message whose content is the generated reply or
the adapter's marked error string; consequently a well-formed
(alternating, user-first, even-length) log stays well-formed and of even
length. -/
theorem chat_submit_appends_user_assistant_pair (st : SessionState) (gen : Gen)
    (p : String) :
    (chat_page st gen (some p)).state.messages
      = st.messages ++
        [{ role := "user", content := p },
         { role := "assistant",
           content := chat_response st.transcription
             (st.messages ++ [{ role := "user", content := p }]) p gen }] ∧
    ((∃ t, gen (systemPrompt st.transcription
          (st.messages ++ [{ role := "user", content := p }]) p) = .ok t ∧
        chat_response st.transcription
          (st.messages ++ [{ role := "user", content := p }]) p gen = t) ∨
      (∃ e, gen (systemPrompt st.transcription
          (st.messages ++ [{ role := "user", content := p }]) p) = .error e ∧
        chat_response st.transcription
          (st.messages ++ [{ role := "user", content := p }]) p gen
          = "⚠️ Error: " ++ e)) ∧
    (chatLogOk st.messages = true →
      chatLogOk (chat_page st gen (some p)).state.messages = true ∧
      (chat_page st gen (some p)).state.messages.length % 2 = 0) := by
  have hmsg : (chat_page st gen (some p)).state.messages
      = st.messages ++
        [{ role := "user", content := p },
         { role := "assistant",
           content := chat_response st.transcription
             (st.messages ++ [{ role := "user", content := p }]) p gen }] := by
    simp [chat_page, chatSubmit]
  refine ⟨hmsg, ?_, ?_⟩
  · cases hg : gen (systemPrompt st.transcription
        (st.messages ++ [{ role := "user", content := p }]) p) with
    | ok t => exact Or.inl ⟨t, rfl, by simp [chat_response, hg]⟩
    | error e => exact Or.inr ⟨e, rfl, by simp [chat_response, hg]⟩
  · intro hok
    rw [hmsg]
    refine ⟨chatLogOk_append st.messages p _ hok, ?_⟩
    have hev := chatLogOk_even st.messages hok
    rw [List.length_append]
    simp only [List.length_cons, List.length_nil]
    omega

/-- The session mid-chat: one completed user/assistant exchange in the
log. -/
def chatDemoState : SessionState :=
  { sessionDefaults with
      page := "chat"
      transcription := "[0.00s] Hello world"
      messages := [{ role := "user", content := "Hi" },
                   { role := "assistant", content := "Hello" }] }

/-- A generative oracle answering chat prompts with a fixed reply. -/
def demoChatGen : Gen := fun _ => .ok "You said hello."

/-- Witness for the C10 theorem on a log holding one prior exchange. -/
theorem chat_submit_appends_user_assistant_pair_witness :
    chatLogOk chatDemoState.messages = true ∧
    (chat_page chatDemoState demoChatGen (some "What was said?")).state.messages
      = chatDemoState.messages ++
        [{ role := "user", content := "What was said?" },
         { role := "assistant",
           content := chat_response chatDemoState.transcription
             (chatDemoState.messages ++ [{ role := "user", content := "What was said?" }])
             "What was said?" demoChatGen }] ∧
    chatLogOk (chat_page chatDemoState demoChatGen
      (some "What was said?")).state.messages = true ∧
    (chat_page chatDemoState demoChatGen
      (some "What was said?")).state.messages.length % 2 = 0 :=
  ⟨by decide,
   (chat_submit_appends_user_assistant_pair chatDemoState demoChatGen "What was said?").1,
   ((chat_submit_appends_user_assistant_pair chatDemoState demoChatGen
      "What was said?").2.2 (by decide)).1,
   ((chat_submit_appends_user_assistant_pair chatDemoState demoChatGen
      "What was said?").2.2 (by decide)).2⟩

end QueryAnalyzer
